import Mathlib

/-!
Verification of the buckling-load prediction core (backend/api.py).

The Python code is shallowly embedded over exact rationals: every float
of the program is modelled as a rational number, `math.pi` is embedded as
the exact value of the IEEE-754 double that Python's `math.pi` denotes,
and Python's `round(x, 3)` is modelled as rounding `x * 1000` to the
nearest integer and dividing by 1000.  The FastAPI endpoint
`predict_buckling` is embedded as a pure function from an optional
opaque model (the external predictor, which may raise an exception or
return NaN) and an input record to an `Except`-value: `Except.ok v`
models the success payload `{predicted_buckling_load_kN: v}` and
`Except.error msg` models the failure payload `{error: msg}`.
-/

/-- Exact rational value of the IEEE-754 double `math.pi`
(3.141592653589793115997963...), i.e. 884279719003555 / 2^48. -/
def mathPi : ℚ := 884279719003555 / 281474976710656

/-- Model of Python's `round(x, 3)`: round `x * 1000` to the nearest
integer and divide by 1000.  (Python rounds exact halves to even; no
value considered in this development is an exact half, so the tie policy
is immaterial.) -/
def roundTo3 (x : ℚ) : ℚ := ((round (x * 1000) : ℤ) : ℚ) / 1000

/-- Characters removed by Python's `str.strip()` (ASCII whitespace). -/
def pyIsSpace (c : Char) : Bool :=
  c == ' ' || c == '\t' || c == '\n' || c == '\r' || c == '\x0b' || c == '\x0c'

/-- Model of Python's `str.strip()`: drop leading and trailing whitespace. -/
def pyStrip (s : String) : String :=
  String.mk (((s.data.dropWhile pyIsSpace).reverse.dropWhile pyIsSpace).reverse)

/-- Model of Python's `str.replace(" ", "_")`. -/
def replaceSpaceWithUnderscore (s : String) : String :=
  String.mk (s.data.map (fun c => if c == ' ' then '_' else c))

/-- Helper for `pyTitle`: the Boolean records whether the previous
character was a cased (alphabetic) character. -/
def titleAux : Bool → List Char → List Char
  | _, [] => []
  | prevAlpha, c :: cs =>
    if c.isAlpha then
      (if prevAlpha then c.toLower else c.toUpper) :: titleAux true cs
    else
      c :: titleAux false cs

/-- Model of Python's `str.title()` (for ASCII data): the first character
of every maximal alphabetic run is uppercased, the rest lowercased. -/
def pyTitle (s : String) : String := String.mk (titleAux false s.data)

/-- The shape normalisation of `formula_buckling`:
`data.Shape.strip().replace(" ", "_").title()`. -/
def normalizeShape (s : String) : String :=
  pyTitle (replaceSpaceWithUnderscore (pyStrip s))

/-- The input record of the endpoint (Pydantic model `BucklingInput`).
All float fields are modelled as rationals.  The source field
`Poissons_Ratio` is named `Poissons_Ratio_v` here. -/
structure BucklingInput where
  Shape : String
  Material : String
  Fibre_Type : String
  Length_mm : ℚ
  Width_mm : ℚ
  Thickness_mm : ℚ
  Outer_Diameter_mm : ℚ
  Inner_Diameter_mm : ℚ
  Hole_Diameter_mm : ℚ
  Youngs_Modulus_GPa : ℚ
  Poissons_Ratio_v : ℚ
  Strength_0_deg_MPa : ℚ
  Strength_90_deg_MPa : ℚ
  Area_mm2 : ℚ
  I_min_mm4 : ℚ
  I_max_mm4 : ℚ
  Buckling_Load_norm : ℚ

/-- Model of `MATERIAL_MODULUS.get(key, 2.3)`.  The dict literal in the
source has eight distinct keys (note the en-dash variants of CF-PLA and
GF-PLA), so the first-match chain below is equivalent to the dict
lookup with default 2.3. -/
def MATERIAL_MODULUS_get (key : String) : ℚ :=
  if key = "CF–PLA" then 3.2
  else if key = "CF-PLA" then 3.2
  else if key = "GF–PLA" then 5.0
  else if key = "GF-PLA" then 5.0
  else if key = "Standard_PLA" then 2.3
  else if key = "PLA" then 2.3
  else if key = "Standard_ABS" then 2.1
  else if key = "ABS" then 2.1
  else 2.3

/-- Modulus resolution, as inlined twice in the source (lines 104-107 and
148-150): a supplied modulus of exactly 0 means "look the material up in
`MATERIAL_MODULUS` with spaces replaced by underscores, default 2.3". -/
def resolve_modulus (material : String) (supplied : ℚ) : ℚ :=
  if supplied = 0 then MATERIAL_MODULUS_get (replaceSpaceWithUnderscore material)
  else supplied

/-- The second-moment-of-area computation of `formula_buckling`
(source lines 110-125), on the already-normalised shape string. -/
def second_moment_of_area (shape : String) (b t do_ di_ d_hole : ℚ) : ℚ :=
  if shape = "Plate" then b * t ^ 3 / 12
  else if shape = "Plate_With_Hole" then b * t ^ 3 / 12 - mathPi * d_hole ^ 4 / 64
  else if shape = "Cylinder" then mathPi / 64 * do_ ^ 4
  else if shape = "Hollow_Cylinder" then
    (if do_ > di_ then mathPi / 64 * (do_ ^ 4 - di_ ^ 4) else 0)
  else if shape = "Rectangular_Bar" then b * t ^ 3 / 12
  else if shape = "Hollow_Rectangular_Bar" then
    (if b > 2 * t then (b ^ 4 - (b - 2 * t) ^ 4) / 12 else 0)
  else 0

/-- The Euler critical-load computation of `formula_buckling`
(source lines 108 and 127-136), on resolved modulus (GPa), second moment
of area (mm^4) and member length (mm): convert the modulus to MPa,
take effective length `Le = 2 * L` (fixed-free), and when the validity
guard `E > 0 and I > 0 and Le > 0` holds return
`round(pi^2 * E * I / Le^2 / 1000, 3)`, otherwise 0.0. -/
def critical_load_kN (modulus_GPa I_mm4 length_mm : ℚ) : ℚ :=
  if modulus_GPa * 1000 > 0 ∧ I_mm4 > 0 ∧ 2 * length_mm > 0 then
    roundTo3 (mathPi ^ 2 * (modulus_GPa * 1000) * I_mm4 / (2 * length_mm) ^ 2 / 1000)
  else 0

/-- The fallback Euler formula `formula_buckling` (source lines 95-136),
transcribed with the source's own binding structure. -/
def formula_buckling (data : BucklingInput) : ℚ :=
  let shape := normalizeShape data.Shape
  let L := data.Length_mm
  let b := data.Width_mm
  let t := data.Thickness_mm
  let do_ := data.Outer_Diameter_mm
  let di_ := data.Inner_Diameter_mm
  let d_hole := data.Hole_Diameter_mm
  let E0 := data.Youngs_Modulus_GPa
  let E1 := if E0 = 0 then MATERIAL_MODULUS_get (replaceSpaceWithUnderscore data.Material)
            else E0
  let E := E1 * 1000
  let I : ℚ :=
    if shape = "Plate" then b * t ^ 3 / 12
    else if shape = "Plate_With_Hole" then b * t ^ 3 / 12 - mathPi * d_hole ^ 4 / 64
    else if shape = "Cylinder" then mathPi / 64 * do_ ^ 4
    else if shape = "Hollow_Cylinder" then
      (if do_ > di_ then mathPi / 64 * (do_ ^ 4 - di_ ^ 4) else 0)
    else if shape = "Rectangular_Bar" then b * t ^ 3 / 12
    else if shape = "Hollow_Rectangular_Bar" then
      (if b > 2 * t then (b ^ 4 - (b - 2 * t) ^ 4) / 12 else 0)
    else 0
  let Le := 2 * L
  if E > 0 ∧ I > 0 ∧ Le > 0 then roundTo3 (mathPi ^ 2 * E * I / Le ^ 2 / 1000)
  else 0

/-- The opaque external predictor.  It receives the numeric feature row
and either raises an exception (`Except.error`) or returns a float,
where `none` models NaN and `some v` a (possibly invalid) number. -/
def Model : Type := List ℚ → Except String (Option ℚ)

/-- The feature row built by the endpoint (source lines 155-163):
`[Length_mm, Width_mm, Thickness_mm, Outer_Diameter_mm,
Inner_Diameter_mm, Hole_Diameter_mm, Youngs_Modulus_MPa]`. -/
def featureVector (data : BucklingInput) (E_MPa : ℚ) : List ℚ :=
  [data.Length_mm, data.Width_mm, data.Thickness_mm,
   data.Outer_Diameter_mm, data.Inner_Diameter_mm, data.Hole_Diameter_mm, E_MPa]

/-- The `/predict` endpoint `predict_buckling` (source lines 142-185).
`Except.ok v` models `{predicted_buckling_load_kN: v}`, `Except.error m`
models `{error: m}` produced by the `except` clause.  Within the
embedding the only fallible step is the external model call; all other
steps are total arithmetic.  The intermediate `pred` (model output,
validated and with formula fallback) is computed exactly as in the
source and then, as in the source, left unused: the returned value is
`formula_buckling(data) * 1.01`. -/
def predict_buckling (model : Option Model) (data : BucklingInput) : Except String ℚ :=
  let E := resolve_modulus data.Material data.Youngs_Modulus_GPa
  let E_MPa := E * 1000
  let afterModel : Except String ℚ :=
    match model with
    | some m =>
      match m (featureVector data E_MPa) with
      | Except.error msg => Except.error msg
      | Except.ok modelOut =>
        match modelOut with
        | none => Except.ok (formula_buckling data)
        | some v =>
          Except.ok (if v ≤ 0 ∨ v > 1000000 then formula_buckling data else v)
    | none => Except.ok (formula_buckling data)
  match afterModel with
  | Except.error msg => Except.error msg
  | Except.ok pred0 =>
    let pred := if pred0 = 0 then formula_buckling data else pred0
    let pred1 := formula_buckling data * 1.01
    Except.ok pred1

/-- The material table exactly as the specification lists it
(CF-PLA 3.2, GF-PLA 5.0, PLA/Standard_PLA 2.3, ABS/Standard_ABS 2.1,
anything else 2.3), as a first-match chain like `MATERIAL_MODULUS_get`.
This is the spec-side definition used to compare the claimed resolution
against the source's. -/
def MATERIAL_MODULUS_get_claimed (key : String) : ℚ :=
  if key = "CF-PLA" then 3.2
  else if key = "GF-PLA" then 5.0
  else if key = "PLA" then 2.3
  else if key = "Standard_PLA" then 2.3
  else if key = "ABS" then 2.1
  else if key = "Standard_ABS" then 2.1
  else 2.3

/-- Modulus resolution exactly as the claim states it: explicit non-zero
modulus wins, otherwise look the material (spaces to underscores) up in
the claimed table. -/
def resolve_modulus_claimed (material : String) (supplied : ℚ) : ℚ :=
  if supplied = 0 then MATERIAL_MODULUS_get_claimed (replaceSpaceWithUnderscore material)
  else supplied

/-- The claimed material table amended with the two en-dash alias keys
that the source's dict also contains. -/
def MATERIAL_MODULUS_get_amended (key : String) : ℚ :=
  if key = "CF-PLA" ∨ key = "CF–PLA" then 3.2
  else if key = "GF-PLA" ∨ key = "GF–PLA" then 5.0
  else if key = "PLA" ∨ key = "Standard_PLA" then 2.3
  else if key = "ABS" ∨ key = "Standard_ABS" then 2.1
  else 2.3

/-- Modulus resolution as amended: like the claim, but over the table
with the en-dash aliases included. -/
def resolve_modulus_amended (material : String) (supplied : ℚ) : ℚ :=
  if supplied = 0 then MATERIAL_MODULUS_get_amended (replaceSpaceWithUnderscore material)
  else supplied

/-- Invalid geometry in the sense of claim C8: unrecognized shape, a
hollow cylinder with inner diameter at least the outer one, a hollow
rectangular bar with width at most twice the thickness, or a plate
whose hole makes the second moment of area non-positive. -/
def geometryInvalid (data : BucklingInput) : Prop :=
  (normalizeShape data.Shape ≠ "Plate" ∧
   normalizeShape data.Shape ≠ "Plate_With_Hole" ∧
   normalizeShape data.Shape ≠ "Cylinder" ∧
   normalizeShape data.Shape ≠ "Hollow_Cylinder" ∧
   normalizeShape data.Shape ≠ "Rectangular_Bar" ∧
   normalizeShape data.Shape ≠ "Hollow_Rectangular_Bar") ∨
  (normalizeShape data.Shape = "Hollow_Cylinder" ∧
   data.Inner_Diameter_mm ≥ data.Outer_Diameter_mm) ∨
  (normalizeShape data.Shape = "Hollow_Rectangular_Bar" ∧
   data.Width_mm ≤ 2 * data.Thickness_mm) ∨
  (normalizeShape data.Shape = "Plate_With_Hole" ∧
   second_moment_of_area (normalizeShape data.Shape) data.Width_mm data.Thickness_mm
     data.Outer_Diameter_mm data.Inner_Diameter_mm data.Hole_Diameter_mm ≤ 0)

instance (data : BucklingInput) : Decidable (geometryInvalid data) := by
  unfold geometryInvalid
  infer_instance

/-- The worked end-to-end example of the specification: a 20 mm by 2 mm
plate, 100 mm long, material PLA, modulus unspecified. -/
def plateExample : BucklingInput :=
  { Shape := "Plate", Material := "PLA", Fibre_Type := "", Length_mm := 100,
    Width_mm := 20, Thickness_mm := 2, Outer_Diameter_mm := 0, Inner_Diameter_mm := 0,
    Hole_Diameter_mm := 0, Youngs_Modulus_GPa := 0, Poissons_Ratio_v := 0,
    Strength_0_deg_MPa := 0, Strength_90_deg_MPa := 0, Area_mm2 := 0,
    I_min_mm4 := 0, I_max_mm4 := 0, Buckling_Load_norm := 0 }

/-- The invalid-geometry end-to-end example of the specification: a
hollow cylinder whose inner diameter (25 mm) exceeds its outer diameter
(20 mm). -/
def hollowBadExample : BucklingInput :=
  { Shape := "Hollow Cylinder", Material := "PLA", Fibre_Type := "", Length_mm := 100,
    Width_mm := 0, Thickness_mm := 0, Outer_Diameter_mm := 20, Inner_Diameter_mm := 25,
    Hole_Diameter_mm := 0, Youngs_Modulus_GPa := 0, Poissons_Ratio_v := 0,
    Strength_0_deg_MPa := 0, Strength_90_deg_MPa := 0, Area_mm2 := 0,
    I_min_mm4 := 0, I_max_mm4 := 0, Buckling_Load_norm := 0 }

/-- A plate input whose supplied modulus is strictly negative. -/
def negModulusExample : BucklingInput :=
  { plateExample with Youngs_Modulus_GPa := -1 }

/-- A variant of the plate example differing from it only in the eight
carried-only fields. -/
def plateExampleCarried : BucklingInput :=
  { plateExample with
    Fibre_Type := "Carbon", Poissons_Ratio_v := 7/20,
    Strength_0_deg_MPa := 50, Strength_90_deg_MPa := 30, Area_mm2 := 40,
    I_min_mm4 := 1, I_max_mm4 := 999, Buckling_Load_norm := 1/2 }

/-- A concrete external predictor that returns a fixed (valid-looking)
estimate; used to witness that the endpoint ignores the model value. -/
def constModel : Model := fun _ => Except.ok (some 999)

/-! ### Helper lemmas -/

lemma mathPi_pos : 0 < mathPi := by norm_num [mathPi]

lemma roundTo3_mono {x y : ℚ} (h : x ≤ y) : roundTo3 x ≤ roundTo3 y := by
  unfold roundTo3
  have hr : round (x * 1000) ≤ round (y * 1000) := by
    rw [round_eq, round_eq]
    exact Int.floor_le_floor (by linarith)
  have : ((round (x * 1000) : ℤ) : ℚ) ≤ ((round (y * 1000) : ℤ) : ℚ) := by
    exact_mod_cast hr
  linarith

lemma roundTo3_zero : roundTo3 0 = 0 := by
  unfold roundTo3
  norm_num

lemma roundTo3_nonneg {x : ℚ} (h : 0 ≤ x) : 0 ≤ roundTo3 x := by
  have := roundTo3_mono h
  rwa [roundTo3_zero] at this

lemma critical_load_kN_nonneg (E I L : ℚ) : 0 ≤ critical_load_kN E I L := by
  unfold critical_load_kN
  split
  · rename_i hg
    obtain ⟨hE, hI, hL⟩ := hg
    apply roundTo3_nonneg
    have hnum : 0 < mathPi ^ 2 * (E * 1000) * I :=
      mul_pos (mul_pos (pow_pos mathPi_pos 2) hE) hI
    have hden : (0 : ℚ) < (2 * L) ^ 2 := pow_pos hL 2
    have h1 : 0 ≤ mathPi ^ 2 * (E * 1000) * I / (2 * L) ^ 2 :=
      div_nonneg hnum.le hden.le
    exact div_nonneg h1 (by norm_num)
  · exact le_refl 0

lemma formula_buckling_nonneg (data : BucklingInput) : 0 ≤ formula_buckling data :=
  critical_load_kN_nonneg _ _ _

lemma predict_buckling_none_eq (data : BucklingInput) :
    predict_buckling none data = Except.ok (formula_buckling data * 1.01) := rfl

lemma formula_buckling_eq_components (data : BucklingInput) :
    formula_buckling data =
      critical_load_kN (resolve_modulus data.Material data.Youngs_Modulus_GPa)
        (second_moment_of_area (normalizeShape data.Shape) data.Width_mm data.Thickness_mm
          data.Outer_Diameter_mm data.Inner_Diameter_mm data.Hole_Diameter_mm)
        data.Length_mm := rfl

lemma normalizeShape_plate : normalizeShape ( "Plate") = "Plate" := by decide

lemma replaceSpace_PLA : replaceSpaceWithUnderscore ( "PLA") = "PLA" := by decide

lemma resolve_modulus_PLA : resolve_modulus ( "PLA") 0 = 23 / 10 := by
  unfold resolve_modulus
  rw [if_pos rfl, replaceSpace_PLA]
  unfold MATERIAL_MODULUS_get
  rw [if_neg (by decide), if_neg (by decide), if_neg (by decide), if_neg (by decide),
    if_neg (by decide), if_pos rfl]
  norm_num

lemma second_moment_plateExample :
    second_moment_of_area ( "Plate") 20 2 0 0 0 = 40 / 3 := by
  norm_num [second_moment_of_area]

lemma critical_load_plateExample : critical_load_kN (23 / 10) (40 / 3) 100 = 1 / 125 := by
  unfold critical_load_kN
  have hg : (23 / 10 : ℚ) * 1000 > 0 ∧ (40 / 3 : ℚ) > 0 ∧ 2 * (100 : ℚ) > 0 := by
    norm_num
  rw [if_pos hg]
  unfold roundTo3
  rw [round_eq]
  norm_num [mathPi]

lemma formula_plateExample : formula_buckling plateExample = 1 / 125 := by
  rw [formula_buckling_eq_components]
  simp only [plateExample]
  rw [normalizeShape_plate, second_moment_plateExample, resolve_modulus_PLA,
    critical_load_plateExample]

lemma predict_none_plateExample :
    predict_buckling none plateExample = Except.ok (101 / 12500) := by
  rw [predict_buckling_none_eq, formula_plateExample]
  norm_num

lemma predict_constModel_plateExample :
    predict_buckling (some constModel) plateExample = Except.ok (101 / 12500) := by
  have h0 : predict_buckling (some constModel) plateExample
      = Except.ok (formula_buckling plateExample * 1.01) := rfl
  rw [h0, formula_plateExample]
  norm_num

lemma critical_load_1_12_100 : critical_load_kN 1 12 100 = 3 / 1000 := by
  unfold critical_load_kN
  have hg : (1 : ℚ) * 1000 > 0 ∧ (12 : ℚ) > 0 ∧ 2 * (100 : ℚ) > 0 := by norm_num
  rw [if_pos hg]
  unfold roundTo3
  rw [round_eq]
  norm_num [mathPi]

lemma critical_load_1_12_0 : critical_load_kN 1 12 0 = 0 := by
  unfold critical_load_kN
  have hg : ¬((1 : ℚ) * 1000 > 0 ∧ (12 : ℚ) > 0 ∧ 2 * (0 : ℚ) > 0) := by norm_num
  rw [if_neg hg]

lemma second_moment_nonpos_of_invalid (data : BucklingInput) (h : geometryInvalid data) :
    second_moment_of_area (normalizeShape data.Shape) data.Width_mm data.Thickness_mm
      data.Outer_Diameter_mm data.Inner_Diameter_mm data.Hole_Diameter_mm ≤ 0 := by
  rcases h with ⟨h1, h2, h3, h4, h5, h6⟩ | ⟨hs, hd⟩ | ⟨hs, hd⟩ | ⟨_, hI⟩
  · unfold second_moment_of_area
    rw [if_neg h1, if_neg h2, if_neg h3, if_neg h4, if_neg h5, if_neg h6]
  · unfold second_moment_of_area
    rw [hs, if_neg (by decide), if_neg (by decide), if_neg (by decide), if_pos rfl,
      if_neg (not_lt.mpr hd)]
  · unfold second_moment_of_area
    rw [hs, if_neg (by decide), if_neg (by decide), if_neg (by decide), if_neg (by decide),
      if_neg (by decide), if_pos rfl, if_neg (not_lt.mpr hd)]
  · exact hI

lemma formula_buckling_of_I_nonpos (data : BucklingInput)
    (hI : second_moment_of_area (normalizeShape data.Shape) data.Width_mm data.Thickness_mm
      data.Outer_Diameter_mm data.Inner_Diameter_mm data.Hole_Diameter_mm ≤ 0) :
    formula_buckling data = 0 := by
  rw [formula_buckling_eq_components]
  unfold critical_load_kN
  exact if_neg (fun hg => absurd hg.2.1 (not_lt.mpr hI))

lemma predict_buckling_ok_val (model : Option Model) (data : BucklingInput) (r : ℚ)
    (h : predict_buckling model data = Except.ok r) :
    r = formula_buckling data * 1.01 := by
  unfold predict_buckling at h
  cases model with
  | none =>
    simp only [Except.ok.injEq] at h
    exact h.symm
  | some m =>
    simp only at h
    cases hm : m (featureVector data
        (resolve_modulus data.Material data.Youngs_Modulus_GPa * 1000)) with
    | error msg =>
      rw [hm] at h
      simp at h
    | ok mo =>
      rw [hm] at h
      cases mo with
      | none =>
        simp only [Except.ok.injEq] at h
        exact h.symm
      | some v =>
        simp only [Except.ok.injEq] at h
        exact h.symm

/-! ### Claim theorems -/

/-- C1: whenever the prediction endpoint succeeds, the returned value is
the Euler-formula result for the input multiplied by 1.01, regardless of
whether a model is present and regardless of the value or validity of
the model's prediction (the quantification over `model` ranges over the
absent case and every possible predictor behaviour). -/
theorem c1_success_value_is_formula_times_uplift (model : Option Model)
    (data : BucklingInput) (r : ℚ)
    (h : predict_buckling model data = Except.ok r) :
    r = formula_buckling data * 1.01 :=
  predict_buckling_ok_val model data r h

/-- Witness for C1: a concrete request with a present model returning
the (valid) estimate 999; the endpoint succeeds with 101/12500, which is
the formula result 1/125 times 1.01. -/
theorem c1_witness :
    predict_buckling (some constModel) plateExample = Except.ok (101 / 12500) ∧
    (101 / 12500 : ℚ) = formula_buckling plateExample * 1.01 :=
  ⟨predict_constModel_plateExample,
   c1_success_value_is_formula_times_uplift (some constModel) plateExample
     (101 / 12500) predict_constModel_plateExample⟩

/-- C2: the Euler-formula computation decomposes into the resolved
modulus, the second moment of area of the normalised shape and
`critical_load_kN`; and `critical_load_kN` returns
`round(pi^2 * E_MPa * I / (2L)^2 / 1000, 3)` (E_MPa the resolved modulus
in GPa times 1000, effective length exactly 2 * length) when
`E_MPa > 0` and `I > 0` and `2L > 0`, and exactly 0 otherwise; being a
total function it never raises. -/
theorem c2_formula_guard_and_value (data : BucklingInput) :
    formula_buckling data =
      critical_load_kN (resolve_modulus data.Material data.Youngs_Modulus_GPa)
        (second_moment_of_area (normalizeShape data.Shape) data.Width_mm data.Thickness_mm
          data.Outer_Diameter_mm data.Inner_Diameter_mm data.Hole_Diameter_mm)
        data.Length_mm ∧
    (∀ E_GPa I L : ℚ, critical_load_kN E_GPa I L =
      if E_GPa * 1000 > 0 ∧ I > 0 ∧ 2 * L > 0 then
        roundTo3 (mathPi ^ 2 * (E_GPa * 1000) * I / (2 * L) ^ 2 / 1000)
      else 0) :=
  ⟨formula_buckling_eq_components data, fun _ _ _ => rfl⟩

/-- C3: the second moment of area matches the claimed shape table
exactly on every dimensional input: Plate and Rectangular_Bar give
b*t^3/12; Plate_With_Hole gives b*t^3/12 - pi*d^4/64 (not clamped);
Cylinder gives (pi/64)*do^4; Hollow_Cylinder gives (pi/64)*(do^4-di^4)
when do > di and 0 otherwise; Hollow_Rectangular_Bar gives
(b^4-(b-2t)^4)/12 when b > 2t and 0 otherwise; and every shape string
other than the six recognised ones gives 0. -/
theorem c3_second_moment_table (b t do_ di_ d_hole : ℚ) :
    second_moment_of_area ( "Plate") b t do_ di_ d_hole = b * t ^ 3 / 12 ∧
    second_moment_of_area ( "Rectangular_Bar") b t do_ di_ d_hole = b * t ^ 3 / 12 ∧
    second_moment_of_area ( "Plate_With_Hole") b t do_ di_ d_hole
      = b * t ^ 3 / 12 - mathPi * d_hole ^ 4 / 64 ∧
    second_moment_of_area ( "Cylinder") b t do_ di_ d_hole = mathPi / 64 * do_ ^ 4 ∧
    second_moment_of_area ( "Hollow_Cylinder") b t do_ di_ d_hole
      = (if do_ > di_ then mathPi / 64 * (do_ ^ 4 - di_ ^ 4) else 0) ∧
    second_moment_of_area ( "Hollow_Rectangular_Bar") b t do_ di_ d_hole
      = (if b > 2 * t then (b ^ 4 - (b - 2 * t) ^ 4) / 12 else 0) ∧
    (∀ s : String, s ≠ "Plate" → s ≠ "Plate_With_Hole" → s ≠ "Cylinder" →
      s ≠ "Hollow_Cylinder" → s ≠ "Rectangular_Bar" → s ≠ "Hollow_Rectangular_Bar" →
      second_moment_of_area s b t do_ di_ d_hole = 0) := by
  refine ⟨?_, ?_, ?_, ?_, ?_, ?_, ?_⟩
  · unfold second_moment_of_area
    rw [if_pos rfl]
  · unfold second_moment_of_area
    rw [if_neg (by decide), if_neg (by decide), if_neg (by decide), if_neg (by decide),
      if_pos rfl]
  · unfold second_moment_of_area
    rw [if_neg (by decide), if_pos rfl]
  · unfold second_moment_of_area
    rw [if_neg (by decide), if_neg (by decide), if_pos rfl]
  · unfold second_moment_of_area
    rw [if_neg (by decide), if_neg (by decide), if_neg (by decide), if_pos rfl]
  · unfold second_moment_of_area
    rw [if_neg (by decide), if_neg (by decide), if_neg (by decide), if_neg (by decide),
      if_neg (by decide), if_pos rfl]
  · intro s h1 h2 h3 h4 h5 h6
    unfold second_moment_of_area
    rw [if_neg h1, if_neg h2, if_neg h3, if_neg h4, if_neg h5, if_neg h6]

/-- Witness for C3: the unrecognised shape string Triangle, with
concrete dimensions, yields a zero second moment of area. -/
theorem c3_witness :
    ( "Triangle" : String) ≠ "Plate" ∧
    second_moment_of_area ( "Triangle") 1 2 3 4 5 = 0 :=
  ⟨by decide,
   (c3_second_moment_table 1 2 3 4 5).2.2.2.2.2.2 ( "Triangle") (by decide) (by decide)
     (by decide) (by decide) (by decide) (by decide)⟩

/-- C7: the endpoint always returns exactly one of a success value or an
error; an error occurs only when the (present) model's prediction call
raises, and then the error carries the raised exception's message.  In
the embedding the model call is the only fallible step: resolution and
the formula computation are total functions. -/
theorem c7_ok_or_model_error (model : Option Model) (data : BucklingInput) :
    (∃ v, predict_buckling model data = Except.ok v) ∨
    (∃ m msg, model = some m ∧
      m (featureVector data (resolve_modulus data.Material data.Youngs_Modulus_GPa * 1000)) =
        Except.error msg ∧
      predict_buckling model data = Except.error msg) := by
  cases model with
  | none => exact Or.inl ⟨formula_buckling data * 1.01, rfl⟩
  | some m =>
    cases hm : m (featureVector data
        (resolve_modulus data.Material data.Youngs_Modulus_GPa * 1000)) with
    | error msg =>
      refine Or.inr ⟨m, msg, rfl, hm, ?_⟩
      simp only [predict_buckling]
      rw [hm]
    | ok mo =>
      cases mo with
      | none =>
        refine Or.inl ⟨formula_buckling data * 1.01, ?_⟩
        simp only [predict_buckling]
        rw [hm]
      | some v =>
        refine Or.inl ⟨formula_buckling data * 1.01, ?_⟩
        simp only [predict_buckling]
        rw [hm]

/-- C4 counterexample: the material string CF–PLA written with an
en dash (U+2013), with supplied modulus 0, resolves to 3.2 GPa in the
code because the source dict also contains en-dash keys, while the
claimed table (whose keys are CF-PLA, GF-PLA, PLA, Standard_PLA, ABS,
Standard_ABS only) would give the 2.3 GPa default; so the claim's
"any material not in the table resolves to 2.3 GPa" is false for the
code's resolution. -/
theorem c4_counterexample :
    resolve_modulus ( "CF–PLA") 0 = 16 / 5 ∧
    resolve_modulus_claimed ( "CF–PLA") 0 = 23 / 10 ∧
    resolve_modulus ( "CF–PLA") 0 ≠ resolve_modulus_claimed ( "CF–PLA") 0 := by
  have hrep : replaceSpaceWithUnderscore ( "CF–PLA") = "CF–PLA" := by decide
  have h1 : resolve_modulus ( "CF–PLA") 0 = 16 / 5 := by
    unfold resolve_modulus
    rw [if_pos rfl, hrep]
    unfold MATERIAL_MODULUS_get
    rw [if_pos rfl]
    norm_num
  have h2 : resolve_modulus_claimed ( "CF–PLA") 0 = 23 / 10 := by
    unfold resolve_modulus_claimed
    rw [if_pos rfl, hrep]
    unfold MATERIAL_MODULUS_get_claimed
    rw [if_neg (by decide), if_neg (by decide), if_neg (by decide), if_neg (by decide),
      if_neg (by decide), if_neg (by decide)]
    norm_num
  refine ⟨h1, h2, ?_⟩
  rw [h1, h2]
  norm_num

/-- C4 amended: modulus resolution behaves exactly as the claim states,
except that the fixed table additionally contains the en-dash alias
keys CF–PLA (3.2) and GF–PLA (5.0): a non-zero supplied modulus is used
unchanged, a zero supplied modulus looks the material (spaces replaced
by underscores) up in the amended table, and any material not in the
amended table resolves to 2.3 GPa, never raising. -/
theorem c4_amended_resolution (material : String) (supplied : ℚ) :
    resolve_modulus material supplied = resolve_modulus_amended material supplied := by
  unfold resolve_modulus resolve_modulus_amended
  by_cases hE : supplied = 0
  · rw [if_pos hE, if_pos hE]
    unfold MATERIAL_MODULUS_get MATERIAL_MODULUS_get_amended
    by_cases h1 : replaceSpaceWithUnderscore material = "CF–PLA"
    · rw [if_pos h1, if_pos (Or.inr h1)]
    · rw [if_neg h1]
      by_cases h2 : replaceSpaceWithUnderscore material = "CF-PLA"
      · rw [if_pos h2, if_pos (Or.inl h2)]
      · rw [if_neg h2, if_neg (not_or.mpr ⟨h2, h1⟩)]
        by_cases h3 : replaceSpaceWithUnderscore material = "GF–PLA"
        · rw [if_pos h3, if_pos (Or.inr h3)]
        · rw [if_neg h3]
          by_cases h4 : replaceSpaceWithUnderscore material = "GF-PLA"
          · rw [if_pos h4, if_pos (Or.inl h4)]
          · rw [if_neg h4, if_neg (not_or.mpr ⟨h4, h3⟩)]
            by_cases h5 : replaceSpaceWithUnderscore material = "Standard_PLA"
            · rw [if_pos h5, if_pos (Or.inr h5)]
            · rw [if_neg h5]
              by_cases h6 : replaceSpaceWithUnderscore material = "PLA"
              · rw [if_pos h6, if_pos (Or.inl h6)]
              · rw [if_neg h6, if_neg (not_or.mpr ⟨h6, h5⟩)]
                by_cases h7 : replaceSpaceWithUnderscore material = "Standard_ABS"
                · rw [if_pos h7, if_pos (Or.inr h7)]
                · rw [if_neg h7]
                  by_cases h8 : replaceSpaceWithUnderscore material = "ABS"
                  · rw [if_pos h8, if_pos (Or.inl h8)]
                  · rw [if_neg h8, if_neg (not_or.mpr ⟨h8, h7⟩)]
  · rw [if_neg hE, if_neg hE]

/-- C5 counterexample: at the claimed worked example (Plate, width 20,
thickness 2, length 100, material PLA, modulus unspecified) the code's
formula value is exactly 0.008 kN — `round(0.00757, 3)` — and the final
value is exactly 0.00808 kN, so neither is within 10^-4 (twenty times
the display precision of the claimed figures) of the claimed
0.00758 kN and 0.00766 kN. -/
theorem c5_counterexample :
    formula_buckling plateExample = 1 / 125 ∧
    predict_buckling none plateExample = Except.ok (101 / 12500) ∧
    ¬(|formula_buckling plateExample - 758 / 100000| ≤ 1 / 10000) ∧
    ¬(|(101 : ℚ) / 12500 - 766 / 100000| ≤ 1 / 10000) := by
  refine ⟨formula_plateExample, predict_none_plateExample, ?_, ?_⟩
  · rw [formula_plateExample]
    rw [abs_le]
    norm_num
  · rw [abs_le]
    norm_num

/-- C5 amended: for the worked example (Plate, width 20 mm, thickness
2 mm, length 100 mm, material PLA, modulus unspecified) the second
moment of area is 20*2^3/12 = 40/3 mm^4, the resolved modulus is
2300 MPa, the effective length is 200 mm, the formula load is exactly
0.008 kN (the unrounded value of about 0.00757 kN is rounded to three
decimal places), and the final returned value is exactly 0.00808 kN. -/
theorem c5_amended_worked_example :
    normalizeShape plateExample.Shape = "Plate" ∧
    second_moment_of_area ( "Plate") plateExample.Width_mm plateExample.Thickness_mm
      plateExample.Outer_Diameter_mm plateExample.Inner_Diameter_mm
      plateExample.Hole_Diameter_mm = 40 / 3 ∧
    resolve_modulus plateExample.Material plateExample.Youngs_Modulus_GPa * 1000 = 2300 ∧
    2 * plateExample.Length_mm = 200 ∧
    formula_buckling plateExample = 8 / 1000 ∧
    predict_buckling none plateExample = Except.ok (808 / 100000) := by
  refine ⟨by decide, ?_, ?_, ?_, ?_, ?_⟩
  · exact second_moment_plateExample
  · show resolve_modulus ( "PLA") 0 * 1000 = 2300
    rw [resolve_modulus_PLA]
    norm_num
  · show 2 * (100 : ℚ) = 200
    norm_num
  · rw [formula_plateExample]
    norm_num
  · rw [predict_none_plateExample]
    norm_num

/-- C6 counterexample: the claimed monotonicity in length fails on the
boundary of the input domain: with modulus 1 GPa and second moment
12 mm^4 (both positive), the load at length 0 is 0 while the load at
length 100 is 0.003 kN, so the load is not non-increasing in length
over the full (non-negative) length domain. -/
theorem c6_counterexample :
    (0 : ℚ) < 1 ∧ (0 : ℚ) < 12 ∧ (0 : ℚ) ≤ 100 ∧
    critical_load_kN 1 12 0 = 0 ∧ critical_load_kN 1 12 100 = 3 / 1000 ∧
    ¬(critical_load_kN 1 12 100 ≤ critical_load_kN 1 12 0) := by
  refine ⟨by norm_num, by norm_num, by norm_num, critical_load_1_12_0,
    critical_load_1_12_100, ?_⟩
  rw [critical_load_1_12_0, critical_load_1_12_100]
  norm_num

/-- C6 amended: for fixed positive length the load is non-decreasing in
the modulus and in the second moment of area; for fixed positive
modulus and second moment of area it is non-increasing in the length
over strictly positive lengths (at length 0 the validity guard returns
0, so the length part fails if length 0 is admitted). -/
theorem c6_amended_monotonicity :
    (∀ E1 E2 I L : ℚ, 0 < L → E1 ≤ E2 →
      critical_load_kN E1 I L ≤ critical_load_kN E2 I L) ∧
    (∀ E I1 I2 L : ℚ, 0 < L → I1 ≤ I2 →
      critical_load_kN E I1 L ≤ critical_load_kN E I2 L) ∧
    (∀ E I L1 L2 : ℚ, 0 < E → 0 < I → 0 < L1 → L1 ≤ L2 →
      critical_load_kN E I L2 ≤ critical_load_kN E I L1) := by
  refine ⟨?_, ?_, ?_⟩
  · intro E1 E2 I L _ hE
    by_cases hg1 : E1 * 1000 > 0 ∧ I > 0 ∧ 2 * L > 0
    · have hg2 : E2 * 1000 > 0 ∧ I > 0 ∧ 2 * L > 0 :=
        ⟨by linarith [hg1.1], hg1.2.1, hg1.2.2⟩
      unfold critical_load_kN
      rw [if_pos hg1, if_pos hg2]
      apply roundTo3_mono
      have hnum : mathPi ^ 2 * (E1 * 1000) * I ≤ mathPi ^ 2 * (E2 * 1000) * I := by
        have ha : E1 * 1000 ≤ E2 * 1000 := by linarith
        have hb : (0 : ℚ) ≤ mathPi ^ 2 := (pow_pos mathPi_pos 2).le
        exact mul_le_mul_of_nonneg_right (mul_le_mul_of_nonneg_left ha hb) hg1.2.1.le
      have hden : (0 : ℚ) < (2 * L) ^ 2 := pow_pos hg1.2.2 2
      have hstep := (div_le_div_iff_of_pos_right hden).mpr hnum
      exact (div_le_div_iff_of_pos_right (by norm_num : (0 : ℚ) < 1000)).mpr hstep
    · have hz : critical_load_kN E1 I L = 0 := by
        unfold critical_load_kN
        exact if_neg hg1
      rw [hz]
      exact critical_load_kN_nonneg E2 I L
  · intro E I1 I2 L _ hI
    by_cases hg1 : E * 1000 > 0 ∧ I1 > 0 ∧ 2 * L > 0
    · have hg2 : E * 1000 > 0 ∧ I2 > 0 ∧ 2 * L > 0 :=
        ⟨hg1.1, by linarith [hg1.2.1], hg1.2.2⟩
      unfold critical_load_kN
      rw [if_pos hg1, if_pos hg2]
      apply roundTo3_mono
      have hnum : mathPi ^ 2 * (E * 1000) * I1 ≤ mathPi ^ 2 * (E * 1000) * I2 := by
        have hb : (0 : ℚ) ≤ mathPi ^ 2 * (E * 1000) :=
          mul_nonneg (pow_pos mathPi_pos 2).le hg1.1.le
        exact mul_le_mul_of_nonneg_left hI hb
      have hden : (0 : ℚ) < (2 * L) ^ 2 := pow_pos hg1.2.2 2
      have hstep := (div_le_div_iff_of_pos_right hden).mpr hnum
      exact (div_le_div_iff_of_pos_right (by norm_num : (0 : ℚ) < 1000)).mpr hstep
    · have hz : critical_load_kN E I1 L = 0 := by
        unfold critical_load_kN
        exact if_neg hg1
      rw [hz]
      exact critical_load_kN_nonneg E I2 L
  · intro E I L1 L2 hE hI hL1 hL
    have hg1 : E * 1000 > 0 ∧ I > 0 ∧ 2 * L1 > 0 := ⟨by linarith, hI, by linarith⟩
    have hg2 : E * 1000 > 0 ∧ I > 0 ∧ 2 * L2 > 0 := ⟨by linarith, hI, by linarith⟩
    unfold critical_load_kN
    rw [if_pos hg1, if_pos hg2]
    apply roundTo3_mono
    have hnum : (0 : ℚ) ≤ mathPi ^ 2 * (E * 1000) * I :=
      (mul_pos (mul_pos (pow_pos mathPi_pos 2) hg1.1) hI).le
    have hd1 : (0 : ℚ) < (2 * L1) ^ 2 := pow_pos hg1.2.2 2
    have hdle : (2 * L1) ^ 2 ≤ (2 * L2) ^ 2 :=
      pow_le_pow_left₀ (by linarith) (by linarith) 2
    have hstep := div_le_div_of_nonneg_left hnum hd1 hdle
    exact (div_le_div_iff_of_pos_right (by norm_num : (0 : ℚ) < 1000)).mpr hstep

/-- Witness for the C6 amended theorem: concrete instances of each
hypothesis, and the modulus-monotonicity conclusion at moduli 1 and 2
GPa with I = 12 mm^4 and length 100 mm. -/
theorem c6_witness :
    (0 : ℚ) < 100 ∧ (1 : ℚ) ≤ 2 ∧
    critical_load_kN 1 12 100 ≤ critical_load_kN 2 12 100 :=
  ⟨by norm_num, by norm_num,
   c6_amended_monotonicity.1 1 2 12 100 (by norm_num) (by norm_num)⟩

/-- C8: every success value of the endpoint is non-negative, and on
invalid geometry (unrecognised shape, inner diameter at least the outer
diameter, width at most twice the thickness, or a hole making the
second moment of area non-positive) a request whose model step does not
raise succeeds with exactly 0, surfaced as a load value and not as an
error. -/
theorem c8_nonneg_and_invalid_geometry_zero (data : BucklingInput) :
    (∀ model r, predict_buckling model data = Except.ok r → 0 ≤ r) ∧
    (geometryInvalid data → predict_buckling none data = Except.ok 0) ∧
    (geometryInvalid data → ∀ model r,
      predict_buckling model data = Except.ok r → r = 0) := by
  refine ⟨?_, ?_, ?_⟩
  · intro model r h
    rw [predict_buckling_ok_val model data r h]
    exact mul_nonneg (formula_buckling_nonneg data) (by norm_num)
  · intro hg
    rw [predict_buckling_none_eq data,
      formula_buckling_of_I_nonpos data (second_moment_nonpos_of_invalid data hg)]
    norm_num
  · intro hg model r h
    rw [predict_buckling_ok_val model data r h,
      formula_buckling_of_I_nonpos data (second_moment_nonpos_of_invalid data hg)]
    norm_num

/-- Witness for C8: the hollow cylinder with inner diameter 25 mm and
outer diameter 20 mm is invalid geometry, and the endpoint (no model)
returns the success value 0, not an error. -/
theorem c8_witness :
    geometryInvalid hollowBadExample ∧
    predict_buckling none hollowBadExample = Except.ok 0 := by
  have hGI : geometryInvalid hollowBadExample := by
    unfold geometryInvalid
    refine Or.inr (Or.inl ⟨?_, ?_⟩)
    · decide
    · show (20 : ℚ) ≤ 25
      norm_num
  exact ⟨hGI, (c8_nonneg_and_invalid_geometry_zero hollowBadExample).2.1 hGI⟩

/-- C9: noninterference of the carried-only fields: two input records
that agree on shape, material, the six dimensions and the supplied
modulus — i.e. differ at most in Fibre_Type, Poissons_Ratio,
Strength_0_deg_MPa, Strength_90_deg_MPa, Area_mm2, I_min_mm4,
I_max_mm4 and Buckling_Load_norm — produce identical endpoint results
for every model, because neither the formula path nor the model feature
row reads those fields. -/
theorem c9_carried_fields_noninterference (model : Option Model)
    (d1 d2 : BucklingInput)
    (hS : d1.Shape = d2.Shape) (hM : d1.Material = d2.Material)
    (hL : d1.Length_mm = d2.Length_mm) (hW : d1.Width_mm = d2.Width_mm)
    (hT : d1.Thickness_mm = d2.Thickness_mm)
    (hO : d1.Outer_Diameter_mm = d2.Outer_Diameter_mm)
    (hI : d1.Inner_Diameter_mm = d2.Inner_Diameter_mm)
    (hH : d1.Hole_Diameter_mm = d2.Hole_Diameter_mm)
    (hE : d1.Youngs_Modulus_GPa = d2.Youngs_Modulus_GPa) :
    predict_buckling model d1 = predict_buckling model d2 := by
  have hF : formula_buckling d1 = formula_buckling d2 := by
    unfold formula_buckling
    rw [hS, hM, hL, hW, hT, hO, hI, hH, hE]
  have hR : resolve_modulus d1.Material d1.Youngs_Modulus_GPa
      = resolve_modulus d2.Material d2.Youngs_Modulus_GPa := by
    rw [hM, hE]
  have hFV : ∀ x, featureVector d1 x = featureVector d2 x := by
    intro x
    unfold featureVector
    rw [hL, hW, hT, hO, hI, hH]
  simp only [predict_buckling, hR, hF, hFV]

/-- Witness for C9: the worked plate example and its variant that
changes all eight carried-only fields give identical endpoint
results. -/
theorem c9_witness :
    plateExample.Poissons_Ratio_v ≠ plateExampleCarried.Poissons_Ratio_v ∧
    predict_buckling none plateExample = predict_buckling none plateExampleCarried :=
  ⟨by norm_num [plateExample, plateExampleCarried],
   c9_carried_fields_noninterference none plateExample plateExampleCarried
     rfl rfl rfl rfl rfl rfl rfl rfl rfl⟩

/-- C10: a strictly negative supplied modulus is used unchanged (no
table lookup), it makes the formula validity guard fail so the formula
value is 0, and the endpoint (no model, or any model whose call
succeeds) returns the success value 0 rather than an error. -/
theorem c10_negative_modulus_zero (data : BucklingInput)
    (h : data.Youngs_Modulus_GPa < 0) :
    resolve_modulus data.Material data.Youngs_Modulus_GPa = data.Youngs_Modulus_GPa ∧
    formula_buckling data = 0 ∧
    predict_buckling none data = Except.ok 0 ∧
    (∀ model r, predict_buckling model data = Except.ok r → r = 0) := by
  have hne : data.Youngs_Modulus_GPa ≠ 0 := ne_of_lt h
  have hres : resolve_modulus data.Material data.Youngs_Modulus_GPa
      = data.Youngs_Modulus_GPa := by
    unfold resolve_modulus
    exact if_neg hne
  have hform : formula_buckling data = 0 := by
    rw [formula_buckling_eq_components, hres]
    unfold critical_load_kN
    refine if_neg (fun hg => ?_)
    have : data.Youngs_Modulus_GPa * 1000 < 0 := by linarith
    linarith [hg.1]
  refine ⟨hres, hform, ?_, ?_⟩
  · rw [predict_buckling_none_eq data, hform]
    norm_num
  · intro model r hr
    rw [predict_buckling_ok_val model data r hr, hform]
    norm_num

/-- Witness for C10: the plate example with supplied modulus -1 GPa
yields the success value 0. -/
theorem c10_witness :
    negModulusExample.Youngs_Modulus_GPa < 0 ∧
    predict_buckling none negModulusExample = Except.ok 0 := by
  have h : negModulusExample.Youngs_Modulus_GPa < 0 := by
    norm_num [negModulusExample, plateExample]
  exact ⟨h, (c10_negative_modulus_zero negModulusExample h).2.2.1⟩
